import Mathlib

/-!
Shallow embedding of the `AnalyticsTracker` client-side telemetry pipeline
(TypeScript, single file): consent-gated admission (`enqueue`), batching and
flushing (`flush`), and the retrying transport (`Transport.send`).

Modelling conventions:
* JavaScript strings are `String`; a JS `string | undefined` parameter is
  `Option String`; the JS falsy test `!s` on a string is `s = ""`.
* `Date.now()`, `location.href`, `document.title`, `document.referrer`,
  `navigator.userAgent` and the parsed UTM parameters are supplied by a
  read-only `HostContext` record.
* `Math.random()`-derived jitter and per-attempt network outcomes are
  supplied as oracle functions (`jit`, `ok`), indexed by 1-based attempt
  number, so the deterministic control flow of `Transport.send` can be
  proved for every possible outcome sequence.
* The cooperative single-threaded model of the source means `flush` runs
  synchronously from its entry through the queue snapshot/clear, suspends at
  `await transport.send(...)`, and resumes in the `try`/`catch`. We split it
  into `flushSnapshot` (the synchronous part) and `flushComplete` (the
  resumption), plus `flushRun` composing the two around a `send` whose
  outcome is given by the oracles; `during` is the list of events appended
  to the queue by producers while `send` is awaited.
-/

namespace Analytics

/-- `TrackerEvent` / `BaseEvent` from the source. `payload` is an opaque
stand-in for the arbitrary structured `payload` object; `utm` and
`customDims` are association lists standing in for the JS record objects.
JS `null`/`undefined` string fields that the builder always fills with a
(possibly empty) string are plain `String`; fields the builder may leave
`undefined` are `Option`. -/
structure Event where
  type : String
  ts : Nat
  url : String
  title : String
  device : String
  referrer : String
  siteId : Option String
  sessionId : Option String
  utm : List (String × String)
  customDims : Option (List (String × String))
  payload : Option String
  userAgent : String
deriving DecidableEq, Repr

/-- `TrackerConfig` after merging with `DEFAULTS` (all fields present). -/
structure TrackerConfig where
  siteId : String
  collectionEndpoint : String
  batchSize : Nat
  flushInterval : Nat
  retryBackoffBaseMs : Nat
  retryMaxAttempts : Nat
deriving DecidableEq, Repr

/-- The `DEFAULTS` constant of the source (the fields the pipeline uses). -/
def DEFAULTS : TrackerConfig :=
  { siteId := ""
  , collectionEndpoint := ""
  , batchSize := 15
  , flushInterval := 5000
  , retryBackoffBaseMs := 500
  , retryMaxAttempts := 4 }

/-- Mutable state of an `AnalyticsTracker` instance (the fields the queue
and delivery pipeline read or write). -/
structure TrackerState where
  config : TrackerConfig
  queue : List Event
  hasConsent : Bool
  sessionId : String
  customDims : List (String × String)
deriving DecidableEq, Repr

/-- Read-only host browser context consumed by the event builder. -/
structure HostContext where
  href : String
  title : String
  referrer : String
  userAgent : String
  nowTs : Nat
  utm : List (String × String)
  isMobile : Bool
deriving DecidableEq, Repr

/-- JS `a || b` on an optional string `a` and string `b`: `undefined`,
`null` and `""` are all falsy, so any of them falls back to `b`. -/
def jsOrS (a : Option String) (b : String) : String :=
  match a with
  | none => b
  | some v => if v = "" then b else v

/-- The `allowWithoutConsent` test inside `enqueue`: the consent-exempt
event kinds are `page_view`, `performance` and `engagement`. -/
def allowWithoutConsent (t : String) : Bool :=
  t == "page_view" || t == "performance" || t == "engagement"

/-- Session back-fill performed by `enqueue`: `if (this.sessionId)
ev.sessionId = this.sessionId`. -/
def backfillSession (sessionId : String) (ev : Event) : Event :=
  if sessionId = "" then ev else { ev with sessionId := some sessionId }

/-- Synchronous part of `flush`: the guard returns (`none`: no transport
call, state unchanged) when the queue is empty or `siteId` is unset;
otherwise it snapshots the whole queue as the batch and clears the queue.
No suspension point occurs inside this function. -/
def flushSnapshot (s : TrackerState) : TrackerState × Option (List Event) :=
  if s.queue.isEmpty then (s, none)
  else if s.config.siteId = "" then (s, none)
  else ({ s with queue := [] }, some s.queue)

/-- Resumption of `flush` after `transport.send` settles: on success the
batch is discarded, on failure (`catch`) the batch is `unshift`ed back to
the front of whatever the queue holds at that moment. -/
def flushComplete (s : TrackerState) (batch : List Event) (success : Bool) :
    TrackerState :=
  if success then s else { s with queue := batch ++ s.queue }

/-- `enqueue` of the source, including the size-threshold flush trigger.
Returns the new state together with the batch handed to the transport when
the threshold flush fired (`void this.flush(false)` runs synchronously up
to its `await`, i.e. exactly `flushSnapshot`). -/
def enqueueOp (s : TrackerState) (ev : Event) :
    TrackerState × Option (List Event) :=
  if s.config.siteId = "" then (s, none)
  else if !s.hasConsent && !allowWithoutConsent ev.type then (s, none)
  else
    let ev' := backfillSession s.sessionId ev
    let s' := { s with queue := s.queue ++ [ev'] }
    if s'.config.batchSize ≤ s'.queue.length then flushSnapshot s'
    else (s', none)

/-- Sequence of `enqueue` calls; collects every batch handed to the
transport by threshold-triggered flushes, oldest first. -/
def enqueueAll (s : TrackerState) (evs : List Event) :
    TrackerState × List (List Event) :=
  match evs with
  | [] => (s, [])
  | ev :: rest =>
    let r := enqueueOp s ev
    let r' := enqueueAll r.1 rest
    (r'.1, (r.2.elim r'.2 (fun b => b :: r'.2)))

/-- The `while (attempt < this.maxAttempts)` fetch loop of `Transport.send`.
Arguments mirror the loop variables: `remaining = maxAttempts - attempt`,
`attempt` is the number of attempts already made, `delay` the current
backoff base. `ok n` is whether the `n`-th (1-based) fetch succeeds (2xx);
`jit n` is the `Math.round(Math.random() * delay)` jitter drawn before the
wait that follows a failed attempt `n`. Returns
(number of fetch attempts made, list of waits performed in ms, whether the
promise resolves). When `remaining` starts at `0` the loop body never runs
and the function falls off the end, resolving successfully. -/
def sendFetchLoop (ok : Nat → Bool) (jit : Nat → Nat) :
    Nat → Nat → Nat → Nat × List Nat × Bool
  | 0, _, _ => (0, [], true)
  | r + 1, attempt, delay =>
    let a := attempt + 1
    if ok a then (1, [], true)
    else if r = 0 then (1, [], false)
    else
      let rest := sendFetchLoop ok jit r a (delay * 2)
      (rest.1 + 1, (delay + jit a) :: rest.2.1, rest.2.2)

/-- `Transport.send(payload, sync)`. In sync mode with `navigator.sendBeacon`
available (`bAvail`), a beacon call reporting acceptance (`bOk`) returns at
once with no fetch attempt; a beacon returning `false` or throwing falls
through to the fetch loop, as does async mode or an unavailable beacon.
Returns (fetch attempts made, waits, resolved-vs-rejected). -/
def Transport.send (sync bAvail bOk : Bool) (ok : Nat → Bool)
    (jit : Nat → Nat) (maxAttempts baseMs : Nat) : Nat × List Nat × Bool :=
  if sync && bAvail && bOk then (0, [], true)
  else sendFetchLoop ok jit maxAttempts 0 baseMs

/-- A whole `flush(sync)` call: guard, snapshot/clear, `await
transport.send` (outcome given by the oracles, maximum attempts and backoff
base read from the config), then the `try`/`catch` resumption. `during` is
the queue content produced by `enqueue` calls interleaved while `send` was
awaited. Returns the final state and the batch handed to the transport
(`none` when the guard made the call a no-op and no transport call
happened). -/
def flushRun (s : TrackerState) (sync bAvail bOk : Bool) (ok : Nat → Bool)
    (jit : Nat → Nat) (during : List Event) :
    TrackerState × Option (List Event) :=
  match flushSnapshot s with
  | (s1, none) => (s1, none)
  | (s1, some batch) =>
    let res := Transport.send sync bAvail bOk ok jit
      s.config.retryMaxAttempts s.config.retryBackoffBaseMs
    (flushComplete { s1 with queue := s1.queue ++ during } batch res.2.2,
      some batch)

/-- `createOrRestoreSession`. `avail` models whether `sessionStorage` is
usable (the `catch` branch handles it being absent or throwing); `store` is
the value under the session key (`none` = `getItem` returned `null`; the
empty string is falsy and also replaced); `fresh` is the `uuidv4()` value
that would be generated. Returns the session id and the store afterwards. -/
def createOrRestoreSession (avail : Bool) (store : Option String)
    (fresh : String) : String × Option String :=
  if avail then
    match store with
    | some id => if id = "" then (fresh, some fresh) else (id, some id)
    | none => (fresh, some fresh)
  else (fresh, store)

/-- `grantConsent`: returns early if consent already granted; otherwise
flips the flag and creates/restores the session. The `Bool` component
records whether the session-creation side effect ran. (Attaching the
consent-only listeners is DOM wiring, outside the queue/pipeline model.) -/
def grantConsent (s : TrackerState) (avail : Bool) (store : Option String)
    (fresh : String) : TrackerState × Option String × Bool :=
  if s.hasConsent then (s, store, false)
  else
    let r := createOrRestoreSession avail store fresh
    ({ s with hasConsent := true, sessionId := r.1 }, r.2, true)

/-- `setSiteId`: ignores a falsy argument, otherwise updates the config. -/
def setSiteId (s : TrackerState) (siteId : String) : TrackerState :=
  if siteId = "" then s
  else { s with config := { s.config with siteId := siteId } }

/-- `setCustomDimension`: ignores a falsy name, otherwise upserts. -/
def setCustomDimension (s : TrackerState) (name value : String) :
    TrackerState :=
  if name = "" then s
  else { s with customDims :=
    (s.customDims.filter (fun p => p.1 ≠ name)) ++ [(name, value)] }

/-- Override record accepted by `buildEvent` (`Partial<BaseEvent>`, the
fields the tracked call sites actually pass). -/
structure Overrides where
  url : Option String := none
  title : Option String := none
  referrer : Option String := none
  payload : Option String := none
deriving DecidableEq, Repr

/-- `buildEvent(type, overrides)`: stamps the event with the current time
and host context, falling back from falsy overrides to
`location.href` / `document.title` / `document.referrer`, and attaches
`siteId`/`sessionId` only when non-empty, the custom-dimension snapshot
only when non-empty, and the UTM parameters parsed from the URL. -/
def buildEvent (host : HostContext) (cfg : TrackerConfig)
    (sessionId : String) (dims : List (String × String)) (type : String)
    (ov : Overrides) : Event :=
  { type := type
  , ts := host.nowTs
  , url := jsOrS ov.url host.href
  , title := jsOrS ov.title host.title
  , device := if host.isMobile then "mobile" else "web"
  , referrer := jsOrS ov.referrer host.referrer
  , siteId := if cfg.siteId = "" then none else some cfg.siteId
  , sessionId := if sessionId = "" then none else some sessionId
  , utm := host.utm
  , customDims := if dims.isEmpty then none else some dims
  , payload := ov.payload
  , userAgent := host.userAgent }

/-- The event `trackPage(url, title)` builds: the `url`/`title` arguments
(themselves `|| location.href` / `|| document.title` resolved at the call
site) and `document.referrer || null` are passed as overrides. -/
def trackPageEvent (host : HostContext) (s : TrackerState)
    (url title : Option String) : Event :=
  buildEvent host s.config s.sessionId s.customDims "page_view"
    { url := some (jsOrS url host.href)
    , title := some (jsOrS title host.title)
    , referrer := if host.referrer = "" then none else some host.referrer }

/-- `trackPage(url, title)`: build the page-view event and enqueue it. -/
def trackPage (host : HostContext) (s : TrackerState)
    (url title : Option String) : TrackerState × Option (List Event) :=
  enqueueOp s (trackPageEvent host s url title)

/-! Concrete sample values used to exercise the definitions. -/

/-- A sample custom event (kind `event` is not consent-exempt). -/
def evSample : Event :=
  { type := "event"
  , ts := 1
  , url := "https://h.example/a"
  , title := "Home"
  , device := "web"
  , referrer := ""
  , siteId := some "site-1"
  , sessionId := none
  , utm := []
  , customDims := none
  , payload := some "p"
  , userAgent := "UA" }

/-- A sample page-view event (consent-exempt kind). -/
def evPage : Event :=
  { evSample with type := "page_view", payload := none }

/-- A sample configuration with `siteId` set and a small batch size. -/
def cfgSample : TrackerConfig :=
  { DEFAULTS with siteId := "site-1", batchSize := 2 }

/-- A sample tracker state: consent granted, empty queue. -/
def sSample : TrackerState :=
  { config := cfgSample
  , queue := []
  , hasConsent := true
  , sessionId := "sess-1"
  , customDims := [] }

/-- Sample state before consent. -/
def sNoConsent : TrackerState :=
  { sSample with hasConsent := false }

/-- Sample state with `siteId` unset. -/
def sNoSite : TrackerState :=
  { sSample with config := { cfgSample with siteId := "" } }

/-- Sample state with one queued event (delivery scenarios). -/
def sOneQueued : TrackerState :=
  { sSample with queue := [evSample] }

/-- Sample state with one queued event and `retryMaxAttempts = 0`. -/
def sZeroRetries : TrackerState :=
  { sSample with
    queue := [evSample],
    config := { cfgSample with retryMaxAttempts := 0 } }

/-- Sample host context. -/
def hostSample : HostContext :=
  { href := "https://h.example/a"
  , title := "Home"
  , referrer := ""
  , userAgent := "UA"
  , nowTs := 100
  , utm := []
  , isMobile := false }

/-- Outcome oracle that fails every attempt. -/
def okNever (_ : Nat) : Bool := false

/-- Outcome oracle that succeeds exactly on attempt 3. -/
def okThird (n : Nat) : Bool := n == 3

/-- Jitter oracle that always draws 0. -/
def jitZero (_ : Nat) : Nat := 0

/-! Helper lemmas shared by the claim theorems. -/

theorem flushSnapshot_frame (s : TrackerState) :
    (flushSnapshot s).1.config = s.config ∧
    (flushSnapshot s).1.hasConsent = s.hasConsent ∧
    (flushSnapshot s).1.sessionId = s.sessionId := by
  unfold flushSnapshot
  split_ifs <;> simp

theorem flushComplete_frame (s : TrackerState) (batch : List Event)
    (b : Bool) :
    (flushComplete s batch b).config = s.config ∧
    (flushComplete s batch b).hasConsent = s.hasConsent ∧
    (flushComplete s batch b).sessionId = s.sessionId := by
  unfold flushComplete
  split_ifs <;> simp

theorem enqueueOp_frame (s : TrackerState) (ev : Event) :
    (enqueueOp s ev).1.config = s.config ∧
    (enqueueOp s ev).1.hasConsent = s.hasConsent ∧
    (enqueueOp s ev).1.sessionId = s.sessionId := by
  unfold enqueueOp
  split_ifs with h1 h2
  · simp
  · simp
  · dsimp only
    split_ifs with h3
    · exact flushSnapshot_frame _
    · simp

theorem flushRun_frame (s : TrackerState) (sync bAvail bOk : Bool)
    (ok : Nat → Bool) (jit : Nat → Nat) (during : List Event) :
    (flushRun s sync bAvail bOk ok jit during).1.config = s.config ∧
    (flushRun s sync bAvail bOk ok jit during).1.hasConsent = s.hasConsent ∧
    (flushRun s sync bAvail bOk ok jit during).1.sessionId = s.sessionId := by
  unfold flushRun flushSnapshot flushComplete
  split_ifs with h1 h2
  · simp
  · simp
  · dsimp only
    split_ifs with h3 <;> simp

theorem flushSnapshot_of_ready (s : TrackerState) (hq : s.queue ≠ [])
    (hsite : s.config.siteId ≠ "") :
    flushSnapshot s = ({ s with queue := [] }, some s.queue) := by
  have hne : s.queue.isEmpty = false := by
    simpa [List.isEmpty_iff] using hq
  simp [flushSnapshot, hne, hsite]

theorem sendFetchLoop_le (ok : Nat → Bool) (jit : Nat → Nat) :
    ∀ (r attempt delay : Nat),
      (sendFetchLoop ok jit r attempt delay).1 ≤ r := by
  intro r
  induction r with
  | zero => intro attempt delay; simp [sendFetchLoop]
  | succ r ih =>
    intro attempt delay
    simp only [sendFetchLoop]
    split_ifs with h1 h2
    · simp
    · simp
    · simpa using Nat.succ_le_succ (ih (attempt + 1) (delay * 2))

theorem sendFetchLoop_run (ok : Nat → Bool) (jit : Nat → Nat) :
    ∀ (k r attempt delay : Nat),
      (∀ n, n < k → ok (attempt + n + 1) = false) →
      ok (attempt + k + 1) = true →
      k < r →
      sendFetchLoop ok jit r attempt delay =
        (k + 1,
          (List.range k).map (fun i => delay * 2 ^ i + jit (attempt + i + 1)),
          true) := by
  intro k
  induction k with
  | zero =>
    intro r attempt delay hfail hsucc hk
    obtain ⟨r', rfl⟩ : ∃ r', r = r' + 1 := ⟨r - 1, by omega⟩
    simpa [sendFetchLoop] using fun h => absurd hsucc (by simp [h])
  | succ k ih =>
    intro r attempt delay hfail hsucc hk
    obtain ⟨r', rfl⟩ : ∃ r', r = r' + 1 := ⟨r - 1, by omega⟩
    have h0 : ok (attempt + 1) = false := by
      simpa using hfail 0 (Nat.succ_pos k)
    have hr0 : r' ≠ 0 := by omega
    have hrec := ih r' (attempt + 1) (delay * 2)
      (fun n hn => by
        have := hfail (n + 1) (by omega)
        simpa [Nat.add_assoc, Nat.add_comm, Nat.add_left_comm] using this)
      (by
        have : attempt + 1 + k + 1 = attempt + (k + 1) + 1 := by omega
        rw [this]; exact hsucc)
      (by omega)
    simp only [sendFetchLoop, h0, hr0, if_false, Bool.false_eq_true,
      if_neg (by simp [h0] : ¬ok (attempt + 1) = true)]
    rw [hrec]
    refine Prod.ext rfl (Prod.ext ?_ rfl)
    show (delay + jit (attempt + 1)) ::
        (List.range k).map
          (fun i => delay * 2 * 2 ^ i + jit (attempt + 1 + i + 1)) =
      (List.range (k + 1)).map
        (fun i => delay * 2 ^ i + jit (attempt + i + 1))
    rw [List.range_succ_eq_map, List.map_cons, List.map_map]
    refine List.cons_eq_cons.mpr ⟨by simp, ?_⟩
    refine List.map_congr_left ?_
    intro i _
    show delay * 2 * 2 ^ i + jit (attempt + 1 + i + 1) =
      delay * 2 ^ (i + 1) + jit (attempt + (i + 1) + 1)
    congr 1
    · ring
    · congr 1
      omega

theorem sendFetchLoop_allfail (ok : Nat → Bool) (jit : Nat → Nat) :
    ∀ (r attempt delay : Nat), 1 ≤ r →
      (∀ n, n < r → ok (attempt + n + 1) = false) →
      (sendFetchLoop ok jit r attempt delay).1 = r ∧
      (sendFetchLoop ok jit r attempt delay).2.2 = false := by
  intro r
  induction r with
  | zero => intro attempt delay h; omega
  | succ r ih =>
    intro attempt delay _ hfail
    have h0 : ok (attempt + 1) = false := by
      simpa using hfail 0 (Nat.succ_pos r)
    by_cases hr0 : r = 0
    · subst hr0
      simp [sendFetchLoop, h0]
    · have hrec := ih (attempt + 1) (delay * 2) (by omega)
        (fun n hn => by
          have := hfail (n + 1) (by omega)
          simpa [Nat.add_assoc, Nat.add_comm, Nat.add_left_comm] using this)
      simp only [sendFetchLoop, h0, Bool.false_eq_true, if_false]
      rw [if_neg hr0]
      exact ⟨by simpa using congrArg Nat.succ hrec.1, hrec.2⟩

theorem enqueueOp_admitted (s : TrackerState) (ev : Event)
    (hsite : s.config.siteId ≠ "") (hc : s.hasConsent = true) :
    enqueueOp s ev =
      (if s.config.batchSize ≤ s.queue.length + 1 then
        flushSnapshot
          { s with queue := s.queue ++ [backfillSession s.sessionId ev] }
      else
        ({ s with queue := s.queue ++ [backfillSession s.sessionId ev] },
          none)) := by
  simp [enqueueOp, hsite, hc]

theorem enqueueAll_fill :
    ∀ (evs : List Event) (s : TrackerState),
      s.config.siteId ≠ "" →
      s.hasConsent = true →
      evs ≠ [] →
      s.queue.length + evs.length = s.config.batchSize →
      enqueueAll s evs =
        ({ s with queue := [] },
          [s.queue ++ evs.map (backfillSession s.sessionId)]) := by
  intro evs
  induction evs with
  | nil => intro s _ _ h _; exact absurd rfl h
  | cons a rest ih =>
    intro s hsite hc _ hlen
    cases rest with
    | nil =>
      have hth : s.config.batchSize ≤ s.queue.length + 1 := by
        simp at hlen; omega
      have hsnap := flushSnapshot_of_ready
        { s with queue := s.queue ++ [backfillSession s.sessionId a] }
        (by simp) hsite
      simp [enqueueAll, enqueueOp_admitted s a hsite hc, hth, hsnap]
    | cons b rest' =>
      have hth : ¬s.config.batchSize ≤ s.queue.length + 1 := by
        simp at hlen; omega
      have hstep := enqueueOp_admitted s a hsite hc
      rw [if_neg hth] at hstep
      have hrec := ih { s with queue := s.queue ++ [backfillSession s.sessionId a] }
        hsite hc (by simp) (by simp at hlen ⊢; omega)
      have hunf : enqueueAll s (a :: (b :: rest')) =
          ((enqueueAll (enqueueOp s a).1 (b :: rest')).1,
            (enqueueOp s a).2.elim
              (enqueueAll (enqueueOp s a).1 (b :: rest')).2
              (fun batch =>
                batch :: (enqueueAll (enqueueOp s a).1 (b :: rest')).2)) :=
        rfl
      rw [hunf, hstep]
      simp only [Option.elim_none]
      rw [hrec]
      simp [List.append_assoc]

/-! Claim theorems. -/

/-- C6: for every event and every tracker state in which `siteId` is unset
(empty), `enqueue` returns without modifying the queue (it returns the
state unchanged and triggers no flush), so no event is ever admitted to the
queue while `siteId` is unset. -/
theorem C6_no_admission_without_siteId (s : TrackerState) (ev : Event)
    (h : s.config.siteId = "") : enqueueOp s ev = (s, none) := by
  simp [enqueueOp, h]

theorem C6_witness :
    sNoSite.config.siteId = "" ∧ enqueueOp sNoSite evSample = (sNoSite, none) :=
  ⟨rfl, C6_no_admission_without_siteId sNoSite evSample rfl⟩

/-- C8: for every tracker state in which the queue is empty or `siteId` is
unset, `flush` — in either mode, for every transport oracle — is a no-op:
it returns the state unchanged (queue, config, consent and session
untouched) and hands no batch to the transport. -/
theorem C8_flush_noop_on_empty_or_unset (s : TrackerState)
    (h : s.queue = [] ∨ s.config.siteId = "") (sync bAvail bOk : Bool)
    (ok : Nat → Bool) (jit : Nat → Nat) (during : List Event) :
    flushRun s sync bAvail bOk ok jit during = (s, none) := by
  have hs : flushSnapshot s = (s, none) := by
    rcases h with h | h <;> simp [flushSnapshot, h]
  simp [flushRun, hs]

theorem C8_witness :
    (sSample.queue = [] ∨ sSample.config.siteId = "") ∧
    flushRun sSample false false false okNever jitZero [] = (sSample, none) :=
  ⟨Or.inl rfl,
    C8_flush_noop_on_empty_or_unset sSample (Or.inl rfl) false false false
      okNever jitZero []⟩

/-- C2: when the queue is nonempty and `siteId` set, `flush` snapshots the
entire queue as the batch and clears it; and whenever the transport
delivery of that batch fails (all retry attempts exhausted), the whole
flush leaves the queue equal to the pre-flush batch followed by the events
enqueued during the failed attempt — the batch is prepended to the front,
global FIFO order is preserved, and no queue content is lost. -/
theorem C2_failed_delivery_requeues_batch (s : TrackerState)
    (hq : s.queue ≠ []) (hsite : s.config.siteId ≠ "") :
    flushSnapshot s = ({ s with queue := [] }, some s.queue) ∧
    ∀ (sync bAvail bOk : Bool) (ok : Nat → Bool) (jit : Nat → Nat)
      (during : List Event),
      (Transport.send sync bAvail bOk ok jit s.config.retryMaxAttempts
          s.config.retryBackoffBaseMs).2.2 = false →
      flushRun s sync bAvail bOk ok jit during =
        ({ s with queue := s.queue ++ during }, some s.queue) := by
  refine ⟨flushSnapshot_of_ready s hq hsite, ?_⟩
  intro sync bAvail bOk ok jit during hfail
  simp [flushRun, flushSnapshot_of_ready s hq hsite, flushComplete, hfail]

theorem C2_witness :
    sOneQueued.queue ≠ [] ∧ sOneQueued.config.siteId ≠ "" ∧
    flushRun sOneQueued false false false okNever jitZero [evPage] =
      ({ sOneQueued with queue := sOneQueued.queue ++ [evPage] },
        some sOneQueued.queue) :=
  ⟨by decide, by decide,
    (C2_failed_delivery_requeues_batch sOneQueued (by decide) (by decide)).2
      false false false okNever jitZero [evPage] (by decide)⟩

/-- C1: for every event whose kind is not consent-exempt (`page_view`,
`performance`, `engagement`), enqueuing it before consent leaves the state
completely unchanged and hands nothing to the transport — the event never
enters the queue, hence never a delivered batch; enqueuing an event of the
same kind after consent is granted (with `siteId` set) appends it (with
session back-filled) to the queue, and it is present in the batch the next
flush delivers — immediately when the enqueue itself triggered the
threshold flush, otherwise in the snapshot of the resulting queue. -/
theorem C1_consent_gates_admission (s : TrackerState) (ev : Event)
    (hkind : allowWithoutConsent ev.type = false) :
    (s.hasConsent = false → enqueueOp s ev = (s, none)) ∧
    (s.hasConsent = true → s.config.siteId ≠ "" →
      ∃ batch : List Event,
        backfillSession s.sessionId ev ∈ batch ∧
        batch = s.queue ++ [backfillSession s.sessionId ev] ∧
        (((enqueueOp s ev).2 = none ∧
            (enqueueOp s ev).1.queue = batch ∧
            (flushSnapshot (enqueueOp s ev).1).2 = some batch) ∨
          ((enqueueOp s ev).2 = some batch ∧
            (enqueueOp s ev).1.queue = []))) := by
  constructor
  · intro hc
    by_cases hs : s.config.siteId = "" <;>
      simp [enqueueOp, hs, hkind, hc]
  · intro hc hs
    refine ⟨s.queue ++ [backfillSession s.sessionId ev], by simp, rfl, ?_⟩
    have hstep : enqueueOp s ev =
        (if s.config.batchSize ≤ s.queue.length + 1 then
          flushSnapshot
            { s with queue := s.queue ++ [backfillSession s.sessionId ev] }
        else ({ s with queue := s.queue ++ [backfillSession s.sessionId ev] },
          none)) := by
      simp [enqueueOp, hs, hkind, hc]
    by_cases hth : s.config.batchSize ≤ s.queue.length + 1
    · right
      rw [hstep, if_pos hth,
        flushSnapshot_of_ready _ (by simp) (by simpa using hs)]
      simp
    · left
      rw [hstep, if_neg hth]
      refine ⟨rfl, rfl, ?_⟩
      rw [flushSnapshot_of_ready _ (by simp) (by simpa using hs)]

theorem C1_witness :
    allowWithoutConsent evSample.type = false ∧
    sNoConsent.hasConsent = false ∧
    enqueueOp sNoConsent evSample = (sNoConsent, none) ∧
    (∃ batch : List Event,
      backfillSession sSample.sessionId evSample ∈ batch ∧
      batch = sSample.queue ++ [backfillSession sSample.sessionId evSample] ∧
      (((enqueueOp sSample evSample).2 = none ∧
          (enqueueOp sSample evSample).1.queue = batch ∧
          (flushSnapshot (enqueueOp sSample evSample).1).2 = some batch) ∨
        ((enqueueOp sSample evSample).2 = some batch ∧
          (enqueueOp sSample evSample).1.queue = []))) :=
  ⟨rfl, rfl,
    (C1_consent_gates_admission sNoConsent evSample rfl).1 rfl,
    (C1_consent_gates_admission sSample evSample rfl).2 rfl (by decide)⟩

/-- C7: `grantConsent` is idempotent and consent is monotonic: after any
`grantConsent` call consent holds, and a second call returns the state
unchanged, produces no new session id and reports that the
session-creation side effect did not run; moreover no pipeline operation
(`enqueue`, the flush phases, a full flush, `setSiteId`,
`setCustomDimension`) ever changes the consent flag or the session id, so
consent transitions once, from ungranted to granted, and is never
revoked. -/
theorem C7_grantConsent_idempotent_monotonic :
    (∀ (s : TrackerState) (avail : Bool) (store : Option String)
      (fresh : String) (avail2 : Bool) (store2 : Option String)
      (fresh2 : String),
      (grantConsent s avail store fresh).1.hasConsent = true ∧
      grantConsent (grantConsent s avail store fresh).1 avail2 store2 fresh2 =
        ((grantConsent s avail store fresh).1, store2, false)) ∧
    (∀ (s : TrackerState) (ev : Event),
      (enqueueOp s ev).1.hasConsent = s.hasConsent ∧
      (enqueueOp s ev).1.sessionId = s.sessionId) ∧
    (∀ s : TrackerState, (flushSnapshot s).1.hasConsent = s.hasConsent ∧
      (flushSnapshot s).1.sessionId = s.sessionId) ∧
    (∀ (s : TrackerState) (batch : List Event) (b : Bool),
      (flushComplete s batch b).hasConsent = s.hasConsent ∧
      (flushComplete s batch b).sessionId = s.sessionId) ∧
    (∀ (s : TrackerState) (sync bAvail bOk : Bool) (ok : Nat → Bool)
      (jit : Nat → Nat) (during : List Event),
      (flushRun s sync bAvail bOk ok jit during).1.hasConsent =
        s.hasConsent ∧
      (flushRun s sync bAvail bOk ok jit during).1.sessionId =
        s.sessionId) ∧
    (∀ (s : TrackerState) (siteId : String),
      (setSiteId s siteId).hasConsent = s.hasConsent ∧
      (setSiteId s siteId).sessionId = s.sessionId) ∧
    (∀ (s : TrackerState) (name value : String),
      (setCustomDimension s name value).hasConsent = s.hasConsent ∧
      (setCustomDimension s name value).sessionId = s.sessionId) := by
  refine ⟨?_, ?_, ?_, ?_, ?_, ?_, ?_⟩
  · intro s avail store fresh avail2 store2 fresh2
    by_cases hc : s.hasConsent <;> simp [grantConsent, hc]
  · intro s ev
    exact ⟨(enqueueOp_frame s ev).2.1, (enqueueOp_frame s ev).2.2⟩
  · intro s
    exact ⟨(flushSnapshot_frame s).2.1, (flushSnapshot_frame s).2.2⟩
  · intro s batch b
    exact ⟨(flushComplete_frame s batch b).2.1,
      (flushComplete_frame s batch b).2.2⟩
  · intro s sync bAvail bOk ok jit during
    exact ⟨(flushRun_frame s sync bAvail bOk ok jit during).2.1,
      (flushRun_frame s sync bAvail bOk ok jit during).2.2⟩
  · intro s siteId
    unfold setSiteId
    split_ifs <;> simp
  · intro s name value
    unfold setCustomDimension
    split_ifs <;> simp

/-- C10: `buildEvent` treats empty-string overrides as absent (JS `||`):
whenever the url or title override is the empty string, the built event has as
url and title the current host document `location.href` and
`document.title`; in particular `trackPage("", "")` builds its page-view
event with the url and title of the host. -/
theorem C10_empty_overrides_fall_back (host : HostContext)
    (cfg : TrackerConfig) (sessionId : String)
    (dims : List (String × String)) (type : String) (ov : Overrides)
    (hu : ov.url = some "") (ht : ov.title = some "") (s : TrackerState) :
    (buildEvent host cfg sessionId dims type ov).url = host.href ∧
    (buildEvent host cfg sessionId dims type ov).title = host.title ∧
    (trackPageEvent host s (some "") (some "")).url = host.href ∧
    (trackPageEvent host s (some "") (some "")).title = host.title := by
  refine ⟨?_, ?_, ?_, ?_⟩ <;>
    simp [buildEvent, trackPageEvent, jsOrS, hu, ht]

theorem C10_witness :
    ({ url := some "", title := some "" } : Overrides).url = some "" ∧
    ({ url := some "", title := some "" } : Overrides).title = some "" ∧
    ((buildEvent hostSample cfgSample "" [] ("event")
        { url := some "", title := some "" }).url = hostSample.href ∧
      (buildEvent hostSample cfgSample "" [] ("event")
        { url := some "", title := some "" }).title = hostSample.title ∧
      (trackPageEvent hostSample sSample (some "") (some "")).url =
        hostSample.href ∧
      (trackPageEvent hostSample sSample (some "") (some "")).title =
        hostSample.title) :=
  ⟨rfl, rfl,
    C10_empty_overrides_fall_back hostSample cfgSample "" [] ("event")
      { url := some "", title := some "" } rfl rfl sSample⟩

/-- C3: with `batchSize = B` and an empty queue, enqueuing exactly B
admitted events triggers exactly one flush attempt, whose batch contains
all B events (with session back-filled) in enqueue order, and the queue is
empty immediately after the snapshot taken by the flush, before delivery completes. -/
theorem C3_exact_batch_triggers_one_flush (s : TrackerState)
    (evs : List Event) (B : Nat)
    (hq : s.queue = []) (hB : s.config.batchSize = B)
    (hsite : s.config.siteId ≠ "") (hc : s.hasConsent = true)
    (hlen : evs.length = B) (hpos : 0 < B) :
    enqueueAll s evs =
      ({ s with queue := [] },
        [evs.map (backfillSession s.sessionId)]) := by
  have hne : evs ≠ [] := by
    cases evs with
    | nil => simp at hlen; omega
    | cons a l => simp
  have h := enqueueAll_fill evs s hsite hc hne
    (by rw [hq, hB, hlen]; simp)
  rw [h, hq]
  simp

theorem C3_witness :
    sSample.queue = [] ∧ sSample.config.batchSize = 2 ∧
    sSample.config.siteId ≠ "" ∧ sSample.hasConsent = true ∧
    ([evSample, evPage] : List Event).length = 2 ∧ 0 < 2 ∧
    enqueueAll sSample [evSample, evPage] =
      ({ sSample with queue := [] },
        [[evSample, evPage].map (backfillSession sSample.sessionId)]) :=
  ⟨rfl, rfl, by decide, rfl, rfl, by decide,
    C3_exact_batch_triggers_one_flush sSample [evSample, evPage] 2 rfl rfl
      (by decide) rfl rfl (by decide)⟩

/-- C4: in a run whose first k fetch attempts fail and whose attempt k+1
succeeds (k+1 within `retryMaxAttempts`), `Transport.send` (async path, so
for any beacon state) makes exactly k+1 attempts and resolves, the k waits
being exactly `baseMs * 2^(n-1)` plus the drawn jitter for failed attempt
n — so, with each jitter in `[0, baseMs * 2^(n-1)]`, every wait is at least
`baseMs * 2^(n-1)` and the waits are non-decreasing; moreover the loop
never makes more than `retryMaxAttempts` attempts, and when every allowed
attempt fails it makes exactly `retryMaxAttempts` attempts and the send
rejects, propagating the failure to the caller. -/
theorem C4_retry_backoff_schedule (ok : Nat → Bool) (jit : Nat → Nat)
    (baseMs maxAttempts k : Nat)
    (hfail : ∀ n, n < k → ok (n + 1) = false)
    (hsucc : ok (k + 1) = true)
    (hk : k < maxAttempts)
    (hjit : ∀ n, jit (n + 1) ≤ baseMs * 2 ^ n) :
    (∀ bAvail bOk : Bool,
      Transport.send false bAvail bOk ok jit maxAttempts baseMs =
        (k + 1,
          (List.range k).map (fun i => baseMs * 2 ^ i + jit (i + 1)),
          true)) ∧
    (∀ i, i < k → baseMs * 2 ^ i ≤ baseMs * 2 ^ i + jit (i + 1)) ∧
    (∀ i j, i ≤ j → j < k →
      baseMs * 2 ^ i + jit (i + 1) ≤ baseMs * 2 ^ j + jit (j + 1)) ∧
    (∀ (ok2 : Nat → Bool) (jit2 : Nat → Nat) (bAvail bOk : Bool),
      (Transport.send false bAvail bOk ok2 jit2 maxAttempts baseMs).1 ≤
        maxAttempts) ∧
    (∀ ok2 : Nat → Bool, 1 ≤ maxAttempts →
      (∀ n, n < maxAttempts → ok2 (n + 1) = false) →
      ∀ bAvail bOk : Bool,
        (Transport.send false bAvail bOk ok2 jit maxAttempts baseMs).1 =
          maxAttempts ∧
        (Transport.send false bAvail bOk ok2 jit maxAttempts
            baseMs).2.2 = false) := by
  refine ⟨?_, ?_, ?_, ?_, ?_⟩
  · intro bAvail bOk
    have h := sendFetchLoop_run ok jit k maxAttempts 0 baseMs
      (fun n hn => by simpa using hfail n hn)
      (by simpa using hsucc) hk
    simpa [Transport.send] using h
  · intro i _
    exact Nat.le_add_right _ _
  · intro i j hij hj
    rcases Nat.eq_or_lt_of_le hij with rfl | hlt
    · exact Nat.le_refl _
    · calc baseMs * 2 ^ i + jit (i + 1)
          ≤ baseMs * 2 ^ i + baseMs * 2 ^ i :=
            Nat.add_le_add_left (hjit i) _
        _ = baseMs * 2 ^ (i + 1) := by ring
        _ ≤ baseMs * 2 ^ j :=
            Nat.mul_le_mul (Nat.le_refl _)
              (Nat.pow_le_pow_right (by norm_num) hlt)
        _ ≤ baseMs * 2 ^ j + jit (j + 1) := Nat.le_add_right _ _
  · intro ok2 jit2 bAvail bOk
    simpa [Transport.send] using sendFetchLoop_le ok2 jit2 maxAttempts 0 baseMs
  · intro ok2 hmax hfail2 bAvail bOk
    have h := sendFetchLoop_allfail ok2 jit maxAttempts 0 baseMs hmax
      (fun n hn => by simpa using hfail2 n hn)
    simpa [Transport.send] using h

theorem C4_witness :
    (∀ n, n < 2 → okThird (n + 1) = false) ∧ okThird (2 + 1) = true ∧
    2 < 4 ∧ (∀ n, jitZero (n + 1) ≤ 500 * 2 ^ n) ∧
    (∀ bAvail bOk : Bool,
      Transport.send false bAvail bOk okThird jitZero 4 500 =
        (3, [500, 1000], true)) :=
  ⟨by decide, by decide, by decide, fun n => Nat.zero_le _,
    fun bAvail bOk =>
      (C4_retry_backoff_schedule okThird jitZero 500 4 2 (by decide)
            (by decide) (by decide) (fun n => Nat.zero_le _)).1 bAvail bOk⟩

/-- C9: with `retryMaxAttempts = 0` (the config constraint
`retryMaxAttempts ≥ 1` violated; the retry loop guard is false at entry),
`Transport.send` on the async path makes zero fetch attempts, performs no
waits and resolves as a success, so a flush of a nonempty queue discards
the snapshot batch as if delivered: every queued event is silently lost
without any network attempt. -/
theorem C9_zero_attempts_lose_batch (s : TrackerState) (bAvail bOk : Bool)
    (ok : Nat → Bool) (jit : Nat → Nat) (during : List Event)
    (hmax : s.config.retryMaxAttempts = 0)
    (hq : s.queue ≠ []) (hsite : s.config.siteId ≠ "") :
    Transport.send false bAvail bOk ok jit s.config.retryMaxAttempts
        s.config.retryBackoffBaseMs = (0, [], true) ∧
    flushRun s false bAvail bOk ok jit during =
      ({ s with queue := during }, some s.queue) := by
  have hsend : Transport.send false bAvail bOk ok jit
      s.config.retryMaxAttempts s.config.retryBackoffBaseMs =
      (0, [], true) := by
    simp [Transport.send, hmax, sendFetchLoop]
  refine ⟨hsend, ?_⟩
  simp [flushRun, flushSnapshot_of_ready s hq hsite, hsend, flushComplete]

theorem C9_witness :
    sZeroRetries.config.retryMaxAttempts = 0 ∧
    sZeroRetries.queue ≠ [] ∧ sZeroRetries.config.siteId ≠ "" ∧
    (Transport.send false false false okNever jitZero
        sZeroRetries.config.retryMaxAttempts
        sZeroRetries.config.retryBackoffBaseMs = (0, [], true) ∧
      flushRun sZeroRetries false false false okNever jitZero [] =
        ({ sZeroRetries with queue := [] }, some sZeroRetries.queue)) :=
  ⟨rfl, by decide, by decide,
    C9_zero_attempts_lose_batch sZeroRetries false false okNever jitZero []
      rfl (by decide) (by decide)⟩

/-- C5 counterexample: the claim says a failed best-effort sync send leaves
the batch permanently lost and never re-queued. On the code, a sync flush
whose beacon is rejected falls back to the retrying fetch path, and when
that also fails the `catch` in `flush` re-queues the batch: starting from a
queue holding one event, the event is back in the queue afterwards, not
lost. -/
theorem C5_counterexample :
    (flushRun sOneQueued true true false okNever jitZero []).1.queue =
      [evSample] ∧ ([evSample] : List Event) ≠ [] := by
  constructor
  · decide
  · decide

/-- C5 (amended): in sync mode the delivery outcome does feed back into the
queue. A beacon acceptance completes the send at once (zero fetch
attempts) and the batch is discarded as delivered; a beacon that is
unavailable, rejected or throwing falls back to the retrying fetch path,
and if all `retryMaxAttempts` attempts fail the batch is re-queued at the
front of the queue exactly as in async mode — it is not permanently
lost. -/
theorem C5_amended_sync_outcome_feeds_back (s : TrackerState)
    (bAvail bOk : Bool) (ok : Nat → Bool) (jit : Nat → Nat)
    (during : List Event)
    (hq : s.queue ≠ []) (hsite : s.config.siteId ≠ "")
    (hbeacon : (bAvail && bOk) = false)
    (hmax : 1 ≤ s.config.retryMaxAttempts)
    (hfail : ∀ n, n < s.config.retryMaxAttempts → ok (n + 1) = false) :
    flushRun s true bAvail bOk ok jit during =
      ({ s with queue := s.queue ++ during }, some s.queue) ∧
    (∀ (ok2 : Nat → Bool) (jit2 : Nat → Nat) (during2 : List Event),
      Transport.send true true true ok2 jit2 s.config.retryMaxAttempts
          s.config.retryBackoffBaseMs = (0, [], true) ∧
      flushRun s true true true ok2 jit2 during2 =
        ({ s with queue := during2 }, some s.queue)) := by
  constructor
  · have hall := sendFetchLoop_allfail ok jit s.config.retryMaxAttempts 0
      s.config.retryBackoffBaseMs hmax
      (fun n hn => by simpa using hfail n hn)
    have hsendfail : (Transport.send true bAvail bOk ok jit
        s.config.retryMaxAttempts s.config.retryBackoffBaseMs).2.2 =
        false := by
      simpa [Transport.send, hbeacon] using hall.2
    simp [flushRun, flushSnapshot_of_ready s hq hsite, flushComplete,
      hsendfail]
  · intro ok2 jit2 during2
    have hsend : Transport.send true true true ok2 jit2
        s.config.retryMaxAttempts s.config.retryBackoffBaseMs =
        (0, [], true) := by
      simp [Transport.send]
    refine ⟨hsend, ?_⟩
    simp [flushRun, flushSnapshot_of_ready s hq hsite, hsend, flushComplete]

theorem C5_amended_witness :
    sOneQueued.queue ≠ [] ∧ sOneQueued.config.siteId ≠ "" ∧
    ((true && false) = false) ∧ 1 ≤ sOneQueued.config.retryMaxAttempts ∧
    (∀ n, n < sOneQueued.config.retryMaxAttempts → okNever (n + 1) = false) ∧
    flushRun sOneQueued true true false okNever jitZero [evPage] =
      ({ sOneQueued with queue := sOneQueued.queue ++ [evPage] },
        some sOneQueued.queue) :=
  ⟨by decide, by decide, by decide, by decide, by decide,
    (C5_amended_sync_outcome_feeds_back sOneQueued true false okNever
        jitZero [evPage] (by decide) (by decide) (by decide) (by decide)
        (by decide)).1⟩

end Analytics
